import Mathlib

/-!
Verification of the ti-cli incremental reconciliation engine and its
hand-rolled KDJ (stochastic oscillator) computation.

The Python source is shallowly embedded: floats become `ℚ` with `Option ℚ`
standing for possibly-NaN cells (`none` = NaN), raised exceptions become
`Except PyErr`, and the relational store plus the opaque Python `hash` are
passed in as explicit parameters.
-/

/-- Python exceptions that the embedded code can raise. -/
inductive PyErr where
  | typeError
  | valueError
  | indexError
  | integrityError
deriving DecidableEq, Repr

/-! ## KDJ computation, embedded from
`src/calculators/technical_indicators.py`, `TechnicalIndicatorCalculator._calculate_kdj`. -/

/-- `np.max` over a list: `none` models the `ValueError` numpy raises on an
empty array. -/
def npMax : List ℚ → Option ℚ
  | [] => none
  | x :: xs => some (xs.foldl max x)

/-- `np.min` over a list (empty array ⇒ `none`, modelling numpy's error). -/
def npMin : List ℚ → Option ℚ
  | [] => none
  | x :: xs => some (xs.foldl min x)

/-- Python slice `l[a:b]` for `0 ≤ a ≤ b` (numpy slices truncate, never fail). -/
def pySlice (l : List ℚ) (a b : Nat) : List ℚ := (l.drop a).take (b - a)

/-- One iteration of the RSV loop of `_calculate_kdj` at index `i`
(`n = 9` hard-coded in the source): indices `i < n-1` keep their NaN
initialisation; otherwise
`rsv[i] = clamp((close[i]-period_low)/(period_high-period_low)*100, 0, 100)`,
with `50` for a flat window. -/
def rsvCell (high low close : List ℚ) (i : Nat) : Except PyErr (Option ℚ) :=
  if i < 8 then .ok none
  else
    match npMax (pySlice high (i - 8) (i + 1)), npMin (pySlice low (i - 8) (i + 1)) with
    | some ph, some pl =>
        .ok (some (if ph ≠ pl then
          max 0 (min 100 ((close.getD i 0 - pl) / (ph - pl) * 100)) else 50))
    | _, _ => .error .valueError

/-- The value `rsvCell` produces when it succeeds. -/
def rsvValue (high low close : List ℚ) (i : Nat) : Option ℚ :=
  match rsvCell high low close i with
  | .ok x => x
  | .error _ => none

/-- The RSV loop over a list of indices. -/
def rsvList (high low close : List ℚ) : List Nat → Except PyErr (List (Option ℚ))
  | [] => .ok []
  | i :: rest =>
    match rsvCell high low close i, rsvList high low close rest with
    | .ok x, .ok xs => .ok (x :: xs)
    | .error e, _ => .error e
    | .ok _, .error e => .error e

/-- One iteration of the K/D loop: given `(k[i-1], d[i-1])` and `rsv[i]`,
produce `(k[i], d[i])`.  When `rsv[i]` is NaN the cells keep their NaN
initialisation; NaN propagates through the float arithmetic otherwise. -/
def kdStep (kd : Option ℚ × Option ℚ) (ri : Option ℚ) : Option ℚ × Option ℚ :=
  match ri with
  | none => (none, none)
  | some r =>
    let kn : Option ℚ := kd.1.map fun p => 2 / 3 * p + 1 / 3 * r
    let dn : Option ℚ :=
      match kd.2, kn with
      | some dp, some knv => some (2 / 3 * dp + 1 / 3 * knv)
      | _, _ => none
    (kn, dn)

/-- The K/D loop: explicit state passing of `(k[i-1], d[i-1])` down a list of
indices, recording each `(k[i], d[i])`. -/
def kdList (rsv : List (Option ℚ)) (kd0 : Option ℚ × Option ℚ) :
    List Nat → List (Option ℚ × Option ℚ)
  | [] => []
  | i :: rest =>
    let kd := kdStep kd0 (rsv.getD i none)
    kd :: kdList rsv kd rest

/-- `j = 3*k - 2*d` with numpy NaN propagation. -/
def nanJ (kv dv : Option ℚ) : Option ℚ :=
  match kv, dv with
  | some a, some b => some (3 * a - 2 * b)
  | _, _ => none

/-- The dictionary `{'RSV','K','D','J'}` returned by `_calculate_kdj`. -/
structure KdjOut where
  rsv : List (Option ℚ)
  k : List (Option ℚ)
  d : List (Option ℚ)
  j : List (Option ℚ)
deriving DecidableEq, Repr

/-- `TechnicalIndicatorCalculator._calculate_kdj` (n = 9): RSV loop, then
`k[8] = rsv[8] if not nan else 50`, `d[8] = k[8]` (indexing `rsv[8]` raises
`IndexError` on inputs shorter than 9), then the left-to-right K/D recurrence
and `j = 3*k - 2*d`. -/
def calculateKdj (high low close : List ℚ) : Except PyErr KdjOut :=
  match rsvList high low close (List.range close.length) with
  | .error e => .error e
  | .ok rsv =>
    match rsv.get? 8 with
    | none => .error .indexError
    | some r8 =>
      let k8 : ℚ := r8.getD 50
      let tail := kdList rsv (some k8, some k8) (List.range' 9 (close.length - 9))
      let kArr := List.replicate 8 (none : Option ℚ) ++ some k8 :: tail.map Prod.fst
      let dArr := List.replicate 8 (none : Option ℚ) ++ some k8 :: tail.map Prod.snd
      .ok ⟨rsv, kArr, dArr, List.zipWith nanJ kArr dArr⟩

/-! ## The duplicate KDJ implementation, embedded from
`src/Indicators.py`, `IndicatorCalculator._calculate_stochastic`.
The Python body is a verbatim copy of `_calculate_kdj`; it is embedded
separately so the equivalence can be stated. -/

/-- RSV loop body of `_calculate_stochastic` (identical source text). -/
def stochRsvCell (high low close : List ℚ) (i : Nat) : Except PyErr (Option ℚ) :=
  if i < 8 then .ok none
  else
    match npMax (pySlice high (i - 8) (i + 1)), npMin (pySlice low (i - 8) (i + 1)) with
    | some ph, some pl =>
        .ok (some (if ph ≠ pl then
          max 0 (min 100 ((close.getD i 0 - pl) / (ph - pl) * 100)) else 50))
    | _, _ => .error .valueError

/-- RSV loop of `_calculate_stochastic`. -/
def stochRsvList (high low close : List ℚ) : List Nat → Except PyErr (List (Option ℚ))
  | [] => .ok []
  | i :: rest =>
    match stochRsvCell high low close i, stochRsvList high low close rest with
    | .ok x, .ok xs => .ok (x :: xs)
    | .error e, _ => .error e
    | .ok _, .error e => .error e

/-- K/D loop body of `_calculate_stochastic`. -/
def stochKdStep (kd : Option ℚ × Option ℚ) (ri : Option ℚ) : Option ℚ × Option ℚ :=
  match ri with
  | none => (none, none)
  | some r =>
    let kn : Option ℚ := kd.1.map fun p => 2 / 3 * p + 1 / 3 * r
    let dn : Option ℚ :=
      match kd.2, kn with
      | some dp, some knv => some (2 / 3 * dp + 1 / 3 * knv)
      | _, _ => none
    (kn, dn)

/-- K/D loop of `_calculate_stochastic`. -/
def stochKdList (rsv : List (Option ℚ)) (kd0 : Option ℚ × Option ℚ) :
    List Nat → List (Option ℚ × Option ℚ)
  | [] => []
  | i :: rest =>
    let kd := stochKdStep kd0 (rsv.getD i none)
    kd :: stochKdList rsv kd rest

/-- `IndicatorCalculator._calculate_stochastic` (n = 9). -/
def calculateStochastic (high low close : List ℚ) : Except PyErr KdjOut :=
  match stochRsvList high low close (List.range close.length) with
  | .error e => .error e
  | .ok rsv =>
    match rsv.get? 8 with
    | none => .error .indexError
    | some r8 =>
      let k8 : ℚ := r8.getD 50
      let tail := stochKdList rsv (some k8, some k8) (List.range' 9 (close.length - 9))
      let kArr := List.replicate 8 (none : Option ℚ) ++ some k8 :: tail.map Prod.fst
      let dArr := List.replicate 8 (none : Option ℚ) ++ some k8 :: tail.map Prod.snd
      .ok ⟨rsv, kArr, dArr, List.zipWith nanJ kArr dArr⟩

/-! ## Spec-side definitions (written from the specification's wording,
for comparison against the embedded code). -/

/-- Spec wording: "max of high over the 9-bar window ending at i". -/
def specWindowHigh (high : List ℚ) (i : Nat) : Option ℚ :=
  ((high.drop (i - 8)).take 9).max?

/-- Spec wording: "min of low over the 9-bar window ending at i". -/
def specWindowLow (low : List ℚ) (i : Nat) : Option ℚ :=
  ((low.drop (i - 8)).take 9).min?

/-- Cell `i` of a possibly-NaN series (`none` = NaN, out of range = NaN). -/
def optIdx (l : List (Option ℚ)) (i : Nat) : Option ℚ := l.getD i none

/-- Numeric value of a possibly-NaN cell (only meaningful where defined). -/
def vIdx (l : List (Option ℚ)) (i : Nat) : ℚ := (l.getD i none).getD 0

/-- The clamped RSV value the source computes at an index `i ≥ 8`
(0 when a window is empty, which cannot happen on well-formed input). -/
def rsvCore (high low close : List ℚ) (i : Nat) : ℚ :=
  match npMax (pySlice high (i - 8) (i + 1)), npMin (pySlice low (i - 8) (i + 1)) with
  | some ph, some pl =>
      if ph ≠ pl then max 0 (min 100 ((close.getD i 0 - pl) / (ph - pl) * 100)) else 50
  | _, _ => 0

/-- Fold of the K/D loop state: `kdIter rsv kd0 s j` is the `(k, d)` pair the
loop holds after processing indices `s, s+1, …, s+j`. -/
def kdIter (rsv : List (Option ℚ)) (kd0 : Option ℚ × Option ℚ) (s : Nat) :
    Nat → Option ℚ × Option ℚ
  | 0 => kdStep kd0 (rsv.getD s none)
  | j + 1 => kdStep (kdIter rsv kd0 s j) (rsv.getD (s + j + 1) none)

/-- The property C1 asserts of the KDJ computation (spec §4.1, §8): NaN
warm-up, the clamped RSV formula with the flat-window midpoint, the
`k[8] = d[8] = rsv[8]` initialisation, the 2/3–1/3 recurrences, and the
unclamped `j = 3k - 2d`. -/
def KdjSpecProp (high low close : List ℚ) : Prop :=
  ∃ out : KdjOut, calculateKdj high low close = .ok out ∧
    out.rsv.length = close.length ∧ out.k.length = close.length ∧
    out.d.length = close.length ∧ out.j.length = close.length ∧
    (∀ i, i < 8 → optIdx out.rsv i = none) ∧
    (∀ i, 8 ≤ i → i < close.length → ∃ ph pl,
      specWindowHigh high i = some ph ∧ specWindowLow low i = some pl ∧
      (ph ≠ pl → optIdx out.rsv i =
        some (max 0 (min 100 (100 * (close.getD i 0 - pl) / (ph - pl))))) ∧
      (ph = pl → optIdx out.rsv i = some 50)) ∧
    (optIdx out.k 8 = optIdx out.rsv 8 ∧ optIdx out.d 8 = optIdx out.rsv 8 ∧
      (optIdx out.rsv 8).isSome = true) ∧
    (∀ i, 9 ≤ i → i < close.length →
      (optIdx out.k i).isSome = true ∧ (optIdx out.d i).isSome = true ∧
      vIdx out.k i = 2 / 3 * vIdx out.k (i - 1) + 1 / 3 * vIdx out.rsv i ∧
      vIdx out.d i = 2 / 3 * vIdx out.d (i - 1) + 1 / 3 * vIdx out.k i) ∧
    (∀ i, i < close.length → (optIdx out.k i).isSome = true →
      optIdx out.j i = some (3 * vIdx out.k i - 2 * vIdx out.d i))

/-! ## Field-comparison policy, embedded from
`src/csv_write_to_sql_server.py`, class `DataComparator`. -/

/-- `COMPARISON_THRESHOLDS['price_columns']`. -/
def price_columns : List String := ["open_price", "high_price", "low_price", "close_price"]

/-- `DataComparator.get_comparison_threshold`: the chain of string-dispatch
checks, with the numeric tolerances of `COMPARISON_THRESHOLDS`. -/
def get_comparison_threshold (column : String) : ℚ :=
  if column ∈ price_columns then 1 / 10000
  else if column = "volume" then 0
  else if column.startsWith "rsi_" then 1 / 100
  else if column ∈ ["dif", "macd", "macd_histogram"] then 1 / 1000
  else if column ∈ ["rsv", "k_value", "d_value", "j_value"] then 1 / 100
  else if column.startsWith "ma" || column.startsWith "ema" then 1 / 10000
  else if column.startsWith "bb_" then 1 / 10000
  else if column = "atr" then 1 / 1000
  else if column ∈ ["cci", "willr"] then 1 / 10
  else if column = "mom" then 1 / 1000
  else 1 / 100

/-- Python `int()`: truncation toward zero. -/
def pyInt (q : ℚ) : ℤ := if 0 ≤ q then ⌊q⌋ else ⌈q⌉

/-- The value `compare_values` actually compares: NaN (`none`) becomes `0`,
and the volume column is truncated to an integer. -/
def normVal (column : String) (v : Option ℚ) : ℚ :=
  let x := v.getD 0
  if column = "volume" then ((pyInt x : ℤ) : ℚ) else x

/-- `DataComparator.compare_values`: `True` iff the two values differ
significantly.  For price columns the threshold is
`max(abs(db_val * 0.0001), 0.001)` — computed from the second (stored)
argument. -/
def compare_values (file_val db_val : Option ℚ) (column : String) : Bool :=
  let f := normVal column file_val
  let d := normVal column db_val
  let threshold := get_comparison_threshold column
  let threshold :=
    if column ∈ price_columns then max |d * (1 / 10000)| (1 / 1000) else threshold
  decide (|f - d| > threshold)

/-! ## Change detection, embedded from `src/csv_write_to_sql_server.py`
(`get_existing_data_info`, `detect_data_changes_optimized`,
`_compare_with_database`).  Dates are day numbers (`ℤ`); a row of `df_clean`
is a `Bar`; the store round-trip of the bounded diff and the opaque Python
`hash` of the key columns are passed in as parameters. -/

/-- One cleaned row: its date and its named numeric cells
(`none` = NaN; the listed columns model `row.index`). -/
structure Bar where
  date : Int
  vals : List (String × Option ℚ)
deriving DecidableEq, Repr

/-- The dictionary `get_existing_data_info` returns when rows exist. -/
structure ExistingInfo where
  recordCount : Nat
  earliestDate : Int
  latestDate : Int
  dataChecksum : Int
deriving DecidableEq, Repr

/-- The `mode` strings of `detect_data_changes_optimized`. -/
inductive ChangeMode where
  | insertAll | incremental | updateChanged | skip
deriving DecidableEq, Repr

/-- The decision dictionary `detect_data_changes_optimized` returns. -/
structure ChangeDecision where
  mode : ChangeMode
  rows : List Bar
  reason : String
deriving DecidableEq, Repr

/-- `get_existing_data_info`: the aggregate row `(count, earliest, latest,
checksum)` — `last_updated` is irrelevant here — becomes metadata only when
`count > 0`; a raised store error is caught and reported as absence. -/
def getExistingDataInfo (probe : Except Unit (Nat × Int × Int × Int)) :
    Option ExistingInfo :=
  match probe with
  | .error _ => none
  | .ok (cnt, e, l, chk) => if 0 < cnt then some ⟨cnt, e, l, chk⟩ else none

/-- `DataCleaner.NUMERIC_COLUMNS`. -/
def NUMERIC_COLUMNS : List String :=
  ["open_price", "high_price", "low_price", "close_price", "volume",
   "rsi_5", "rsi_7", "rsi_10", "rsi_14", "rsi_21",
   "dif", "macd", "macd_histogram",
   "rsv", "k_value", "d_value", "j_value",
   "ma5", "ma10", "ma20", "ma60", "ema12", "ema26",
   "bb_upper", "bb_middle", "bb_lower", "atr", "cci", "willr", "mom"]

/-- `df_clean['date'].min()` (0 is never used: the caller guards non-empty). -/
def fileEarliest (E : List Bar) : Int :=
  match E.map Bar.date with
  | [] => 0
  | x :: xs => xs.foldl min x

/-- `df_clean['date'].max()`. -/
def fileLatest (E : List Bar) : Int :=
  match E.map Bar.date with
  | [] => 0
  | x :: xs => xs.foldl max x

/-- The fast-hash short-circuit tier: the file range is contained in the
stored range, the record counts agree, and the two hashes agree modulo
1000000 (Python `abs(h) % 1000000`).  `fh` stands for the opaque
`hash(str(...))` of the `(date, close_price, volume)` projection. -/
def skipByHash (E : List Bar) (mi : ExistingInfo) (fh : List Bar → Int) : Bool :=
  decide (mi.earliestDate ≤ fileEarliest E) && decide (fileLatest E ≤ mi.latestDate) &&
  decide (E.length = mi.recordCount) &&
  decide ((fh E).natAbs % 1000000 = mi.dataChecksum.natAbs % 1000000)

/-- `row.get(col, 0)` on a cleaned row. -/
def rowVal (b : Bar) (col : String) : Option ℚ :=
  match b.vals.find? (fun p => p.1 = col) with
  | some p => p.2
  | none => some 0

/-- `col in row.index`. -/
def rowHasCol (b : Bar) (col : String) : Bool :=
  (b.vals.find? (fun p => p.1 = col)).isSome

/-- `db_row.get(col, 0)` (store nulls were already coalesced to 0). -/
def dbRowVal (row : List (String × ℚ)) (col : String) : ℚ :=
  match row.find? (fun p => p.1 = col) with
  | some p => p.2
  | none => 0

/-- Python dict built by insertion: a later row with the same date wins. -/
def dbLookup (rows : List (Int × List (String × ℚ))) (d : Int) :
    Option (List (String × ℚ)) :=
  (rows.reverse.find? (fun p => p.1 = d)).map Prod.snd

/-- The per-row change test of `_compare_with_database`: a row whose date the
store did not return is not flagged; otherwise any significantly different
column flags it. -/
def rowChanged (dbRows : List (Int × List (String × ℚ))) (b : Bar) : Bool :=
  match dbLookup dbRows b.date with
  | none => false
  | some dbRow => NUMERIC_COLUMNS.any fun col =>
      rowHasCol b col && compare_values (rowVal b col) (some (dbRowVal dbRow col)) col

/-- `_compare_with_database`, with the store query passed in as `dbResult`:
an empty frame compares to nothing; a raised store error is caught and all
rows are returned; an empty query result returns all rows. -/
def compareWithDatabase (dbResult : Except Unit (List (Int × List (String × ℚ))))
    (df : List Bar) : List Bar :=
  if df.isEmpty then []
  else
    match dbResult with
    | .error _ => df
    | .ok dbRows => if dbRows.isEmpty then df else df.filter (rowChanged dbRows)

/-- The rows `detect_data_changes_optimized` submits to the bounded diff:
the overlap window trimmed to the most recent 30 days. -/
def overlapFileData (E : List Bar) (mi : ExistingInfo) : List Bar :=
  let overlapEnd := min (fileLatest E) mi.latestDate
  let recentDate := max (overlapEnd - 30) (max (fileEarliest E) mi.earliestDate)
  E.filter fun b => decide (recentDate ≤ b.date) && decide (b.date ≤ overlapEnd)

/-- `detect_data_changes_optimized`.  Tier order as in the source: absence ⇒
insert_all; fast-hash containment check ⇒ skip; new historical/future rows ⇒
incremental; bounded 30-day/100-row diff ⇒ update_changed; otherwise skip.
On an existing symbol an empty cleaned frame raises (pandas `NaT.date()`). -/
def detectDataChangesOptimized (E : List Bar) (info : Option ExistingInfo)
    (fh : List Bar → Int)
    (dbResult : Except Unit (List (Int × List (String × ℚ)))) :
    Except PyErr ChangeDecision :=
  match info with
  | none => .ok ⟨.insertAll, E, "股票不存在於資料庫"⟩
  | some mi =>
    if E.isEmpty then .error .valueError
    else if skipByHash E mi fh then .ok ⟨.skip, [], "快速雜湊檢查：數據無變化"⟩
    else
      let historicalData := E.filter fun b => decide (b.date < mi.earliestDate)
      let futureData := E.filter fun b => decide (mi.latestDate < b.date)
      if !historicalData.isEmpty || !futureData.isEmpty then
        .ok ⟨.incremental, historicalData ++ futureData,
          "發現 " ++ String.intercalate " 和 "
            ((if !historicalData.isEmpty then
                [toString historicalData.length ++ " 筆歷史數據"] else []) ++
             (if !futureData.isEmpty then
                [toString futureData.length ++ " 筆新數據"] else []))⟩
      else
        let overlapStart := max (fileEarliest E) mi.earliestDate
        let overlapEnd := min (fileLatest E) mi.latestDate
        if overlapStart ≤ overlapEnd then
          let overlapData := overlapFileData E mi
          if !overlapData.isEmpty && overlapData.length ≤ 100 then
            let changedRows := compareWithDatabase dbResult overlapData
            if !changedRows.isEmpty then
              .ok ⟨.updateChanged, changedRows,
                "最近30天內檢測到 " ++ toString changedRows.length ++ " 筆數據有變化"⟩
            else .ok ⟨.skip, [], "有限範圍檢查：數據無重大變化"⟩
          else .ok ⟨.skip, [], "有限範圍檢查：數據無重大變化"⟩
        else .ok ⟨.skip, [], "有限範圍檢查：數據無重大變化"⟩

/-! ## The new-data selection of `StockDataService.process_stock`
(`src/services/stock_data_service.py`, steps 1–3 of the comparison). -/

/-- pandas `.tail(n)`: the last `n` rows. -/
def listTail (E : List Bar) (n : Nat) : List Bar := E.drop (E.length - n)

/-- The `new_data_parts` list `process_stock` builds: a `historical` part only
when `expand_history` is set and older rows exist, a `future` part for rows
beyond the stored latest, and — only in non-expand runs — an `updated` part
for the dates `compare_with_external_data` flags in the recent window
(`external_data.loc[dates]` modelled as selection by date membership). -/
def processStockNewDataParts (expandHistory : Bool) (external : List Bar)
    (dbEarliest dbLatest : Int) (checkDays : Nat)
    (outdatedOf : List Bar → List Int) : List (String × List Bar) :=
  let p1 : List (String × List Bar) :=
    if expandHistory && decide (fileEarliest external < dbEarliest) then
      let historicalData := external.filter fun b => decide (b.date < dbEarliest)
      if !historicalData.isEmpty then [("historical", historicalData)] else []
    else []
  let p2 : List (String × List Bar) :=
    if decide (dbLatest < fileLatest external) then
      let futureData := external.filter fun b => decide (dbLatest < b.date)
      if !futureData.isEmpty then [("future", futureData)] else []
    else []
  let p3 : List (String × List Bar) :=
    if !expandHistory then
      let outdatedDates := outdatedOf (listTail external checkDays)
      if !outdatedDates.isEmpty then
        [("updated", external.filter fun b => decide (b.date ∈ outdatedDates))]
      else []
    else []
  p1 ++ p2 ++ p3

/-! ## Upsert gateway, embedded from `src/csv_write_to_sql_server.py`
(`_execute_import`, `_incremental_update`, `_insert_new_data`,
`_update_all_data`, `_replace_all_data`, `_upsert_batch_by_batch`).
The store is the list of rows of `stock_data`, which carries the unique
constraint `UK_stock_symbol_date` on `(symbol, date)`. -/

/-- One stored/staged row. -/
structure DbRow where
  symbol : String
  date : Int
  vals : List (String × Option ℚ)
deriving DecidableEq, Repr

/-- The `{'imported_rows', 'updated_rows', 'skipped_rows'}` result dict. -/
structure ImportCounts where
  imported_rows : Nat
  updated_rows : Nat
  skipped_rows : Nat
deriving DecidableEq, Repr

/-- Does the table already hold a row with this `(symbol, date)` key? -/
def hasKey (store : List DbRow) (sym : String) (d : Int) : Bool :=
  store.any fun r => decide (r.symbol = sym) && decide (r.date = d)

/-- The `(symbol, date)` keys of a batch. -/
def rowKeys (rows : List DbRow) : List (String × Int) :=
  rows.map fun r => (r.symbol, r.date)

/-- `df.to_sql(..., if_exists='append')`: a plain batch INSERT.  It violates
`UK_stock_symbol_date` — and the statement fails — whenever a batch key is
already stored or duplicated inside the batch. -/
def toSqlAppend (store : List DbRow) (rows : List DbRow) :
    Except PyErr (List DbRow) :=
  if rows.any (fun r => hasKey store r.symbol r.date) || !decide (rowKeys rows).Nodup then
    .error .integrityError
  else .ok (store ++ rows)

/-- One `MERGE` statement keyed on `(symbol, date)`: matching key updates all
non-key columns, otherwise insert.  `true` = the row was inserted. -/
def mergeRow (store : List DbRow) (r : DbRow) : List DbRow × Bool :=
  if hasKey store r.symbol r.date then
    (store.map fun t =>
      if decide (t.symbol = r.symbol) && decide (t.date = r.date) then
        ⟨t.symbol, t.date, r.vals⟩ else t,
     false)
  else (store ++ [r], true)

/-- The body of `_upsert_batch_by_batch`: per-row MERGE, counting inserts and
updates. -/
def upsertRowsBody (store : List DbRow) : List DbRow → List DbRow × ImportCounts
  | [] => (store, ⟨0, 0, 0⟩)
  | r :: rest =>
    let s1 := mergeRow store r
    let s2 := upsertRowsBody s1.1 rest
    (s2.1, if s1.2 then ⟨s2.2.imported_rows + 1, s2.2.updated_rows, s2.2.skipped_rows⟩
           else ⟨s2.2.imported_rows, s2.2.updated_rows + 1, s2.2.skipped_rows⟩)

/-- Parameter count of `def _upsert_batch_by_batch(self, df)` (source line
998): one parameter besides `self`. -/
def upsertBatchByBatchParamCount : Nat := 1

/-- Argument count of every call site,
`self._upsert_batch_by_batch(df, symbol)` (source lines 967, 974, 994):
two positional arguments besides `self`. -/
def upsertBatchByBatchCallArgCount : Nat := 2

/-- Python call semantics for the fallback invocation: when the argument
count differs from the parameter count the call raises `TypeError` before
the body runs. -/
def callUpsertBatchByBatch (store : List DbRow) (rows : List DbRow) :
    Except PyErr (List DbRow × ImportCounts) :=
  if upsertBatchByBatchCallArgCount = upsertBatchByBatchParamCount then
    .ok (upsertRowsBody store rows)
  else .error .typeError

/-- `_incremental_update`: batch INSERT; on failure, fall back to the
per-row upsert call. -/
def incrementalUpdate (store : List DbRow) (rows : List DbRow) :
    Except PyErr (List DbRow × ImportCounts) :=
  match toSqlAppend store rows with
  | .ok s => .ok (s, ⟨rows.length, 0, 0⟩)
  | .error _ => callUpsertBatchByBatch store rows

/-- `_insert_new_data`: same batch INSERT with the same fallback call. -/
def insertNewData (store : List DbRow) (rows : List DbRow) :
    Except PyErr (List DbRow × ImportCounts) :=
  match toSqlAppend store rows with
  | .ok s => .ok (s, ⟨rows.length, 0, 0⟩)
  | .error _ => callUpsertBatchByBatch store rows

/-- `_update_all_data`: delegates to the per-row upsert call. -/
def updateAllData (store : List DbRow) (rows : List DbRow) :
    Except PyErr (List DbRow × ImportCounts) :=
  callUpsertBatchByBatch store rows

/-- `_replace_all_data`: delete this symbol's rows, then batch INSERT;
failures re-raise. -/
def replaceAllData (store : List DbRow) (rows : List DbRow) (symbol : String) :
    Except PyErr (List DbRow × ImportCounts) :=
  let purged := store.filter fun r => !decide (r.symbol = symbol)
  match toSqlAppend purged rows with
  | .ok s => .ok (s, ⟨rows.length, 0, 0⟩)
  | .error e => .error e

/-- `_execute_import`: route the decided rows by mode string. -/
def executeImport (store : List DbRow) (rows : List DbRow) (symbol : String)
    (mode : String) : Except PyErr (List DbRow × ImportCounts) :=
  if rows.isEmpty then .ok (store, ⟨0, 0, 0⟩)
  else if mode = "replace" then replaceAllData store rows symbol
  else if mode = "incremental" || mode = "insert_all" then incrementalUpdate store rows
  else if mode ∈ ["update_changed", "update_all", "update"] then updateAllData store rows
  else insertNewData store rows

/-! ## Concrete values used by witnesses and counterexamples. -/

/-- A trivial stand-in for the opaque Python hash. -/
def zeroHash : List Bar → Int := fun _ => 0

/-- A stand-in hash that never matches checksum 123. -/
def oneHash : List Bar → Int := fun _ => 1

/-- A constant outdated-dates oracle used by a witness. -/
def outdatedAt5 : List Bar → List Int := fun _ => [5]

/-- A staged row for the gateway. -/
def sampleRow : DbRow := ⟨"2330", 1, [("close_price", some 100)]⟩

/-- The same key as `sampleRow` with a different close. -/
def sampleRow2 : DbRow := ⟨"2330", 1, [("close_price", some 101)]⟩

/-! ## Lemmas about the embedded KDJ computation. -/

theorem rsvList_ok (high low close : List ℚ) (idxs : List Nat)
    (h : ∀ i ∈ idxs, rsvCell high low close i = .ok (rsvValue high low close i)) :
    rsvList high low close idxs = .ok (idxs.map (rsvValue high low close)) := by
  induction idxs with
  | nil => rfl
  | cons i rest ih =>
    have hi := h i (List.mem_cons_self i rest)
    have hr := ih fun x hx => h x (List.mem_cons_of_mem i hx)
    simp [rsvList, hi, hr]

theorem kdIter_shift (rsv : List (Option ℚ)) (kd0 : Option ℚ × Option ℚ) (s j : Nat) :
    kdIter rsv kd0 s (j + 1) =
      kdIter rsv (kdStep kd0 (rsv.getD s none)) (s + 1) j := by
  induction j with
  | zero => simp [kdIter]
  | succ j ih =>
    have h1 : kdIter rsv kd0 s (j + 1 + 1) =
        kdStep (kdIter rsv kd0 s (j + 1)) (rsv.getD (s + (j + 1) + 1) none) := rfl
    rw [h1, ih, show s + (j + 1) + 1 = s + 1 + j + 1 by omega]
    rfl

theorem kdList_get? (rsv : List (Option ℚ)) (kd0 : Option ℚ × Option ℚ)
    (s t j : Nat) (hj : j < t) :
    (kdList rsv kd0 (List.range' s t)).get? j = some (kdIter rsv kd0 s j) := by
  induction t generalizing s kd0 j with
  | zero => omega
  | succ t ih =>
    rw [List.range'_succ]
    cases j with
    | zero => simp [kdList, kdIter]
    | succ j =>
      rw [kdList]
      simp only [List.get?_cons_succ]
      rw [ih _ _ _ (by omega), kdIter_shift]

theorem kdList_length (rsv : List (Option ℚ)) (kd0 : Option ℚ × Option ℚ)
    (idxs : List Nat) : (kdList rsv kd0 idxs).length = idxs.length := by
  induction idxs generalizing kd0 with
  | nil => rfl
  | cons i rest ih => simp [kdList, ih]

theorem zipWith_nanJ_get? (a b : List (Option ℚ)) (i : Nat) :
    (List.zipWith nanJ a b).get? i =
      match a.get? i, b.get? i with
      | some x, some y => some (nanJ x y)
      | _, _ => none := by
  induction a generalizing b i with
  | nil => simp
  | cons x xs ih =>
    cases b with
    | nil => simp
    | cons y ys =>
      cases i with
      | zero => simp
      | succ i => simpa using ih ys i

theorem getD_eq_get? (l : List (Option ℚ)) (n : Nat) :
    l.getD n none = (l.get? n).getD none := by
  simp [List.getD_eq_getElem?_getD, List.get?_eq_getElem?]

theorem pySlice_ne_nil (l : List ℚ) (a b : Nat) (ha : a < l.length) (hab : a < b) :
    pySlice l a b ≠ [] := by
  unfold pySlice
  have hd : l.drop a ≠ [] := by
    rw [ne_eq, List.drop_eq_nil_iff]
    omega
  obtain ⟨x, xs, hx⟩ := List.exists_cons_of_ne_nil hd
  rw [hx]
  have : b - a ≠ 0 := by omega
  cases hba : b - a with
  | zero => omega
  | succ t => simp

theorem npMax_some (l : List ℚ) (h : l ≠ []) : ∃ v, npMax l = some v := by
  cases l with
  | nil => exact absurd rfl h
  | cons x xs => exact ⟨_, rfl⟩

theorem npMin_some (l : List ℚ) (h : l ≠ []) : ∃ v, npMin l = some v := by
  cases l with
  | nil => exact absurd rfl h
  | cons x xs => exact ⟨_, rfl⟩

theorem npMax_eq_max? (l : List ℚ) : npMax l = l.max? := by cases l <;> rfl

theorem npMin_eq_min? (l : List ℚ) : npMin l = l.min? := by cases l <;> rfl

theorem rsvCell_short (high low close : List ℚ) (i : Nat) (h : i < 8) :
    rsvCell high low close i = .ok none := by
  simp [rsvCell, h]

theorem rsvCell_long (high low close : List ℚ) (i : Nat) (h8 : 8 ≤ i)
    (hh : i < high.length) (hl : i < low.length) :
    rsvCell high low close i = .ok (some (rsvCore high low close i)) := by
  obtain ⟨ph, hph⟩ := npMax_some _ (pySlice_ne_nil high (i - 8) (i + 1) (by omega) (by omega))
  obtain ⟨pl, hpl⟩ := npMin_some _ (pySlice_ne_nil low (i - 8) (i + 1) (by omega) (by omega))
  rw [rsvCell, rsvCore, if_neg (by omega), hph, hpl]

theorem rsvValue_of_ok (high low close : List ℚ) (i : Nat) (x : Option ℚ)
    (h : rsvCell high low close i = .ok x) : rsvValue high low close i = x := by
  rw [rsvValue, h]

theorem rsv_getD (high low close : List ℚ) (i : Nat) (h : i < close.length) :
    ((List.range close.length).map (rsvValue high low close)).getD i none =
      rsvValue high low close i := by
  rw [getD_eq_get?, List.get?_map, List.get?_range h]
  rfl

theorem prefix9_getD (x : Option ℚ) (rest : List (Option ℚ)) (i : Nat) :
    (List.replicate 8 (none : Option ℚ) ++ x :: rest).getD i none =
      if i < 8 then none else if i = 8 then x else rest.getD (i - 9) none := by
  rcases lt_or_ge i 8 with h | h
  · rw [List.getD_append _ _ _ _ (by simpa using h), if_pos h]
    rcases i with _|_|_|_|_|_|_|_ <;> simp [List.getD] <;> omega
  · rw [List.getD_append_right _ _ _ _ (by simpa using h), if_neg (by omega)]
    rw [List.length_replicate]
    rcases heq : i - 8 with _ | t
    · rw [if_pos (by omega)]
      rfl
    · rw [if_neg (by omega), List.getD_cons_succ]
      congr 1
      omega

theorem kdIter_some (rsv : List (Option ℚ)) (k8 : ℚ) (m : Nat)
    (hrsv : ∀ x, 9 ≤ x → x < m → ∃ v, rsv.getD x none = some v) :
    ∀ j, 9 + j < m → ∃ kv dv, kdIter rsv (some k8, some k8) 9 j = (some kv, some dv) := by
  intro j
  induction j with
  | zero =>
    intro hj
    obtain ⟨v, hv⟩ := hrsv 9 (by omega) (by omega)
    exact ⟨_, _, by rw [kdIter, hv]; rfl⟩
  | succ j ih =>
    intro hj
    obtain ⟨kv, dv, hkd⟩ := ih (by omega)
    obtain ⟨v, hv⟩ := hrsv (9 + j + 1) (by omega) (by omega)
    exact ⟨_, _, by rw [kdIter, hkd, hv]; rfl⟩

/-- C1: for equal-length arrays of length ≥ 9 with `high[i] ≥ low[i]`
everywhere, `_calculate_kdj` returns same-length series where the warm-up is
NaN, `rsv[i]` is the clamped window formula (exactly 50 on a flat window),
`k[8] = d[8] = rsv[8]`, `k`/`d` follow the 2/3–1/3 recurrences, and
`j = 3k - 2d` at every defined index, unclamped. -/
theorem calculateKdj_meets_spec (high low close : List ℚ)
    (hh : high.length = close.length) (hl : low.length = close.length)
    (hm : 9 ≤ close.length)
    (hhl : ∀ i, i < close.length → low.getD i 0 ≤ high.getD i 0) :
    KdjSpecProp high low close := by
  have hcells : ∀ i ∈ List.range close.length,
      rsvCell high low close i = .ok (rsvValue high low close i) := by
    intro i hi
    rw [List.mem_range] at hi
    rcases lt_or_ge i 8 with h8 | h8
    · have h := rsvCell_short high low close i h8
      rw [rsvValue_of_ok _ _ _ _ _ h]
      exact h
    · have h := rsvCell_long high low close i h8 (by omega) (by omega)
      rw [rsvValue_of_ok _ _ _ _ _ h]
      exact h
  have hok := rsvList_ok high low close (List.range close.length) hcells
  set rsv := (List.range close.length).map (rsvValue high low close) with hrsvdef
  have hrsv_len : rsv.length = close.length := by simp [hrsvdef]
  have hrsv_short : ∀ i, i < 8 → rsv.getD i none = none := by
    intro i hi
    rw [rsv_getD high low close i (by omega),
      rsvValue_of_ok _ _ _ _ _ (rsvCell_short high low close i hi)]
  have hrsv_long : ∀ i, 8 ≤ i → i < close.length →
      rsv.getD i none = some (rsvCore high low close i) := by
    intro i h8 him
    rw [rsv_getD high low close i him,
      rsvValue_of_ok _ _ _ _ _ (rsvCell_long high low close i h8 (by omega) (by omega))]
  have h8some := hrsv_long 8 le_rfl (by omega)
  have h8v : rsv.get? 8 = some (some (rsvCore high low close 8)) := by
    rw [getD_eq_get?] at h8some
    cases hx : rsv.get? 8 with
    | none => rw [hx] at h8some; exact absurd h8some (by simp)
    | some x => rw [hx] at h8some; simpa using h8some
  set k8 := rsvCore high low close 8 with hk8def
  set tailPairs := kdList rsv (some k8, some k8) (List.range' 9 (close.length - 9))
    with htaildef
  set kArr := List.replicate 8 (none : Option ℚ) ++ some k8 :: tailPairs.map Prod.fst
    with hkarrdef
  set dArr := List.replicate 8 (none : Option ℚ) ++ some k8 :: tailPairs.map Prod.snd
    with hdarrdef
  have hcalc : calculateKdj high low close =
      .ok ⟨rsv, kArr, dArr, List.zipWith nanJ kArr dArr⟩ := by
    unfold calculateKdj
    rw [hok]
    dsimp only
    rw [h8v]
    rfl
  have htail_get : ∀ j, j < close.length - 9 →
      tailPairs.get? j = some (kdIter rsv (some k8, some k8) 9 j) := by
    intro j hj
    rw [htaildef]
    exact kdList_get? rsv (some k8, some k8) 9 (close.length - 9) j hj
  have hkArr_getD : ∀ i, 9 ≤ i → i < close.length →
      kArr.getD i none = (kdIter rsv (some k8, some k8) 9 (i - 9)).1 := by
    intro i h9 him
    rw [hkarrdef, prefix9_getD, if_neg (by omega), if_neg (by omega),
      getD_eq_get?, List.get?_map, htail_get (i - 9) (by omega)]
    rfl
  have hdArr_getD : ∀ i, 9 ≤ i → i < close.length →
      dArr.getD i none = (kdIter rsv (some k8, some k8) 9 (i - 9)).2 := by
    intro i h9 him
    rw [hdarrdef, prefix9_getD, if_neg (by omega), if_neg (by omega),
      getD_eq_get?, List.get?_map, htail_get (i - 9) (by omega)]
    rfl
  have hkArr8 : kArr.getD 8 none = some k8 := by
    rw [hkarrdef, prefix9_getD, if_neg (by omega), if_pos rfl]
  have hdArr8 : dArr.getD 8 none = some k8 := by
    rw [hdarrdef, prefix9_getD, if_neg (by omega), if_pos rfl]
  have hkArr_short : ∀ i, i < 8 → kArr.getD i none = none := by
    intro i hi
    rw [hkarrdef, prefix9_getD, if_pos hi]
  have hrsv9 : ∀ x, 9 ≤ x → x < close.length → ∃ v, rsv.getD x none = some v :=
    fun x h1 h2 => ⟨_, hrsv_long x (by omega) h2⟩
  have hiter := kdIter_some rsv k8 close.length hrsv9
  have hkArr_len : kArr.length = close.length := by
    rw [hkarrdef]
    simp [htaildef, kdList_length, List.length_range']
    omega
  have hdArr_len : dArr.length = close.length := by
    rw [hdarrdef]
    simp [htaildef, kdList_length, List.length_range']
    omega
  have hget_of_lt : ∀ (l : List (Option ℚ)) (i : Nat), i < l.length →
      l.get? i = some (l.getD i none) := by
    intro l i hi
    cases hc : l.get? i with
    | none => rw [List.get?_eq_none] at hc; omega
    | some v =>
      rw [getD_eq_get?, hc]
      rfl
  refine ⟨⟨rsv, kArr, dArr, List.zipWith nanJ kArr dArr⟩, hcalc, hrsv_len, hkArr_len,
    hdArr_len, ?_, ?_, ?_, ?_, ?_, ?_⟩
  · simpa [List.length_zipWith] using by omega
  · -- NaN warm-up of rsv
    intro i hi
    exact hrsv_short i hi
  · -- the RSV window formula
    intro i h8 him
    have h9eq : i + 1 - (i - 8) = 9 := by omega
    obtain ⟨ph, hph⟩ := npMax_some _ (pySlice_ne_nil high (i - 8) (i + 1) (by omega) (by omega))
    obtain ⟨pl, hpl⟩ := npMin_some _ (pySlice_ne_nil low (i - 8) (i + 1) (by omega) (by omega))
    have hsh : specWindowHigh high i = some ph := by
      unfold specWindowHigh
      rw [← npMax_eq_max?]
      rw [show (high.drop (i - 8)).take 9 = pySlice high (i - 8) (i + 1) by
        rw [pySlice, h9eq]]
      exact hph
    have hsl : specWindowLow low i = some pl := by
      unfold specWindowLow
      rw [← npMin_eq_min?]
      rw [show (low.drop (i - 8)).take 9 = pySlice low (i - 8) (i + 1) by
        rw [pySlice, h9eq]]
      exact hpl
    have hcore : rsvCore high low close i =
        if ph ≠ pl then
          max 0 (min 100 ((close.getD i 0 - pl) / (ph - pl) * 100)) else 50 := by
      rw [rsvCore, hph, hpl]
    refine ⟨ph, pl, hsh, hsl, fun hne => ?_, fun heq => ?_⟩
    · show rsv.getD i none = _
      rw [hrsv_long i h8 him, hcore, if_pos hne]
      congr 1
      congr 1
      congr 1
      ring
    · show rsv.getD i none = _
      rw [hrsv_long i h8 him, hcore, if_neg (by simpa using heq)]
  · -- initialisation k[8] = d[8] = rsv[8]
    refine ⟨?_, ?_, ?_⟩
    · show kArr.getD 8 none = rsv.getD 8 none
      rw [hkArr8, h8some]
    · show dArr.getD 8 none = rsv.getD 8 none
      rw [hdArr8, h8some]
    · show (rsv.getD 8 none).isSome = true
      rw [h8some]
      rfl
  · -- the smoothing recurrences
    intro i h9 him
    rcases eq_or_lt_of_le h9 with h9' | h10
    · -- i = 9
      subst h9'
      have hstep : kdIter rsv (some k8, some k8) 9 0 =
          (some (2 / 3 * k8 + 1 / 3 * rsvCore high low close 9),
           some (2 / 3 * k8 + 1 / 3 * (2 / 3 * k8 + 1 / 3 * rsvCore high low close 9))) := by
        rw [kdIter, hrsv_long 9 (by omega) him]
        rfl
      have hk9 := hkArr_getD 9 le_rfl him
      have hd9 := hdArr_getD 9 le_rfl him
      rw [show (9 : Nat) - 9 = 0 from rfl, hstep] at hk9 hd9
      refine ⟨?_, ?_, ?_, ?_⟩
      · show (kArr.getD 9 none).isSome = true
        rw [hk9]; rfl
      · show (dArr.getD 9 none).isSome = true
        rw [hd9]; rfl
      · show vIdx kArr 9 = 2 / 3 * vIdx kArr (9 - 1) + 1 / 3 * vIdx rsv 9
        rw [vIdx, vIdx, vIdx, hk9, show (9 : Nat) - 1 = 8 from rfl, hkArr8,
          hrsv_long 9 (by omega) him]
        rfl
      · show vIdx dArr 9 = 2 / 3 * vIdx dArr (9 - 1) + 1 / 3 * vIdx kArr 9
        rw [vIdx, vIdx, vIdx, hd9, show (9 : Nat) - 1 = 8 from rfl, hdArr8, hk9]
        rfl
    · -- i ≥ 10
      obtain ⟨kv, dv, hkd⟩ := hiter (i - 10) (by omega)
      have hstep : kdIter rsv (some k8, some k8) 9 (i - 9) =
          (some (2 / 3 * kv + 1 / 3 * rsvCore high low close i),
           some (2 / 3 * dv + 1 / 3 * (2 / 3 * kv + 1 / 3 * rsvCore high low close i))) := by
        rw [show i - 9 = (i - 10) + 1 by omega, kdIter, hkd,
          show 9 + (i - 10) + 1 = i by omega, hrsv_long i (by omega) him]
        rfl
      have hki := hkArr_getD i (by omega) him
      have hdi := hdArr_getD i (by omega) him
      rw [hstep] at hki hdi
      have hkim1 := hkArr_getD (i - 1) (by omega) (by omega)
      have hdim1 := hdArr_getD (i - 1) (by omega) (by omega)
      rw [show i - 1 - 9 = i - 10 by omega, hkd] at hkim1 hdim1
      refine ⟨?_, ?_, ?_, ?_⟩
      · show (kArr.getD i none).isSome = true
        rw [hki]; rfl
      · show (dArr.getD i none).isSome = true
        rw [hdi]; rfl
      · show vIdx kArr i = 2 / 3 * vIdx kArr (i - 1) + 1 / 3 * vIdx rsv i
        rw [vIdx, vIdx, vIdx, hki, hkim1, hrsv_long i (by omega) him]
        rfl
      · show vIdx dArr i = 2 / 3 * vIdx dArr (i - 1) + 1 / 3 * vIdx kArr i
        rw [vIdx, vIdx, vIdx, hdi, hdim1, hki]
        rfl
  · -- j = 3k - 2d wherever k is defined
    intro i him hks
    have hkq := hget_of_lt kArr i (by omega)
    have hdq := hget_of_lt dArr i (by omega)
    have hj : (List.zipWith nanJ kArr dArr).get? i =
        some (nanJ (kArr.getD i none) (dArr.getD i none)) := by
      rw [zipWith_nanJ_get?, hkq, hdq]
    have hjD : (List.zipWith nanJ kArr dArr).getD i none =
        nanJ (kArr.getD i none) (dArr.getD i none) := by
      rw [getD_eq_get?, hj]
      rfl
    show (List.zipWith nanJ kArr dArr).getD i none = _
    rcases lt_or_ge i 8 with h8 | h8
    · have hks' : (kArr.getD i none).isSome = true := hks
      rw [hkArr_short i h8] at hks'
      exact absurd hks' (by simp)
    rcases eq_or_lt_of_le h8 with h8' | h9
    · subst h8'
      rw [hjD, vIdx, vIdx, hkArr8, hdArr8]
      rfl
    · obtain ⟨kv, dv, hkd⟩ := hiter (i - 9) (by omega)
      have hki := hkArr_getD i (by omega) him
      have hdi := hdArr_getD i (by omega) him
      rw [hkd] at hki hdi
      rw [hjD, vIdx, vIdx, hki, hdi]
      rfl

/-- Witness for C1 at the spec §8 KDJ scenario arrays. -/
theorem calculateKdj_meets_spec_witness :
    (([10,12,11,13,14,12,15,16,14,18] : List ℚ).length =
        ([9,11,10,12,13,11,14,15,13,17] : List ℚ).length) ∧
    (([8,9,9,10,11,10,12,13,12,15] : List ℚ).length =
        ([9,11,10,12,13,11,14,15,13,17] : List ℚ).length) ∧
    9 ≤ ([9,11,10,12,13,11,14,15,13,17] : List ℚ).length ∧
    (∀ i, i < ([9,11,10,12,13,11,14,15,13,17] : List ℚ).length →
      ([8,9,9,10,11,10,12,13,12,15] : List ℚ).getD i 0 ≤
        ([10,12,11,13,14,12,15,16,14,18] : List ℚ).getD i 0) ∧
    KdjSpecProp [10,12,11,13,14,12,15,16,14,18] [8,9,9,10,11,10,12,13,12,15]
      [9,11,10,12,13,11,14,15,13,17] :=
  ⟨rfl, rfl, by norm_num, by decide,
    calculateKdj_meets_spec _ _ _ rfl rfl (by norm_num) (by decide)⟩

/-! ## The two KDJ implementations agree (C10). -/

theorem stochKdStep_eq : stochKdStep = kdStep := rfl

theorem stochRsvList_eq : stochRsvList = rsvList := by
  funext h l c idxs
  induction idxs with
  | nil => rfl
  | cons i rest ih =>
    simp [stochRsvList, rsvList, ih]
    rfl

theorem stochKdList_eq : stochKdList = kdList := by
  funext rsv kd0 idxs
  induction idxs generalizing kd0 with
  | nil => rfl
  | cons i rest ih => simp [stochKdList, kdList, ih, stochKdStep_eq]

/-- C10: on every triple of equal-length high/low/close arrays the two
hand-rolled KDJ implementations — `_calculate_stochastic` in
`src/Indicators.py` and `_calculate_kdj` in
`src/calculators/technical_indicators.py` — produce identical RSV, K, D and
J series (the two Python bodies are verbatim copies). -/
theorem kdj_implementations_agree (high low close : List ℚ)
    (hh : high.length = close.length) (hl : low.length = close.length) :
    calculateStochastic high low close = calculateKdj high low close := by
  simp [calculateStochastic, calculateKdj, stochRsvList_eq, stochKdList_eq]

/-- Witness for C10 at the spec §8 KDJ scenario arrays. -/
theorem kdj_implementations_agree_witness :
    (([10,12,11,13,14,12,15,16,14,18] : List ℚ).length =
        ([9,11,10,12,13,11,14,15,13,17] : List ℚ).length) ∧
    (([8,9,9,10,11,10,12,13,12,15] : List ℚ).length =
        ([9,11,10,12,13,11,14,15,13,17] : List ℚ).length) ∧
    calculateStochastic [10,12,11,13,14,12,15,16,14,18] [8,9,9,10,11,10,12,13,12,15]
        [9,11,10,12,13,11,14,15,13,17] =
      calculateKdj [10,12,11,13,14,12,15,16,14,18] [8,9,9,10,11,10,12,13,12,15]
        [9,11,10,12,13,11,14,15,13,17] :=
  ⟨rfl, rfl, kdj_implementations_agree _ _ _ rfl rfl⟩

/-! ## Short inputs raise instead of returning all-NaN arrays (C5). -/

/-- Counterexample to C5: on the equal-length, length-1 input the computation
does not return all-NaN arrays — indexing `rsv[8]` during the K
initialisation raises `IndexError`. -/
theorem calculateKdj_short_raises :
    calculateKdj [10] [8] [9] = .error .indexError := rfl

/-- C5 (amended): for equal-length inputs of length < 9, `_calculate_kdj`
raises `IndexError` (from `rsv[8]` in the K initialisation) rather than
returning all-NaN arrays. -/
theorem calculateKdj_short_indexError (high low close : List ℚ)
    (hh : high.length = close.length) (hl : low.length = close.length)
    (hm : close.length < 9) :
    calculateKdj high low close = .error .indexError := by
  have hcells : ∀ i ∈ List.range close.length,
      rsvCell high low close i = .ok (rsvValue high low close i) := by
    intro i hi
    rw [List.mem_range] at hi
    have h8 : i < 8 := by omega
    have h := rsvCell_short high low close i h8
    rw [rsvValue_of_ok _ _ _ _ _ h]
    exact h
  have hok := rsvList_ok high low close (List.range close.length) hcells
  unfold calculateKdj
  rw [hok]
  dsimp only
  have hnone : ((List.range close.length).map (rsvValue high low close)).get? 8 = none := by
    rw [List.get?_eq_none]
    simp
    omega
  rw [hnone]

/-- Witness for the amended C5 on the empty input. -/
theorem calculateKdj_short_indexError_witness :
    (([] : List ℚ).length = ([] : List ℚ).length) ∧
    (([] : List ℚ).length = ([] : List ℚ).length) ∧
    ([] : List ℚ).length < 9 ∧
    calculateKdj [] [] [] = .error .indexError :=
  ⟨rfl, rfl, by decide, calculateKdj_short_indexError [] [] [] rfl rfl (by decide)⟩

/-! ## Threshold symmetry (C4). -/

/-- Counterexample to C4: for the price field `open_price` the relative
threshold is derived from the second (stored) argument, so at `a = 9999`,
`b = 10000` the predicate is order-dependent: the difference `1` is not above
`b`'s threshold `max(1, 0.001) = 1` but is above `a`'s threshold `0.9999`. -/
theorem compare_values_price_asymmetric :
    compare_values (some 9999) (some 10000) "open_price" = false ∧
    compare_values (some 10000) (some 9999) "open_price" = true := by
  have hnv : ¬ ("open_price" = "volume") := by decide
  have hpc : "open_price" ∈ price_columns := by decide
  constructor
  · dsimp only [compare_values, normVal, Option.getD]
    rw [if_neg hnv, if_neg hnv, if_pos hpc]
    rw [decide_eq_false_iff_not]
    rw [show |(9999:ℚ) - 10000| = 1 by norm_num,
      show max |(10000:ℚ) * (1 / 10000)| (1 / 1000) = 1 by norm_num]
    norm_num
  · dsimp only [compare_values, normVal, Option.getD]
    rw [if_neg hnv, if_neg hnv, if_pos hpc]
    rw [decide_eq_true_eq]
    rw [show |(10000:ℚ) - 9999| = 1 by norm_num,
      show max |(9999:ℚ) * (1 / 10000)| (1 / 1000) = 9999 / 10000 by
        rw [show (9999:ℚ) * (1 / 10000) = 9999 / 10000 by norm_num,
          abs_of_nonneg (by norm_num : (0:ℚ) ≤ 9999 / 10000)]
        exact max_eq_left (by norm_num)]
    norm_num

/-- C4 (amended): the significant-difference predicate is symmetric for every
field outside the four price columns (whose relative threshold is computed
from the stored value and can break symmetry). -/
theorem compare_values_symm_nonprice (a b : Option ℚ) (col : String)
    (h : col ∉ price_columns) :
    compare_values a b col = compare_values b a col := by
  dsimp only [compare_values]
  rw [if_neg h, if_neg h, abs_sub_comm]

/-- Witness for the amended C4 on a non-price field. -/
theorem compare_values_symm_nonprice_witness :
    ("rsi_5" ∉ price_columns) ∧
    compare_values (some 3) (some 5) "rsi_5" = compare_values (some 5) (some 3) "rsi_5" :=
  ⟨by decide, compare_values_symm_nonprice (some 3) (some 5) "rsi_5" (by decide)⟩

/-! ## Change-detection tier properties (C2, C6, C7, C8). -/

/-- C2: whenever no stored metadata exists — the probe found no rows, or it
raised and the error was treated as absence — the change detection returns
`insert_all` with all of `E`, for every series `E` including the empty one,
and never any other mode. -/
theorem detect_no_metadata_insertAll (E : List Bar)
    (probe : Except Unit (Nat × Int × Int × Int)) (fh : List Bar → Int)
    (dbResult : Except Unit (List (Int × List (String × ℚ))))
    (h : probe = .error () ∨ ∃ e l c, probe = .ok (0, e, l, c)) :
    detectDataChangesOptimized E (getExistingDataInfo probe) fh dbResult =
      .ok ⟨.insertAll, E, "股票不存在於資料庫"⟩ := by
  have hnone : getExistingDataInfo probe = none := by
    rcases h with h | ⟨e, l, c, h⟩ <;> subst h <;> rfl
  rw [hnone]
  rfl

/-- Witness for C2 with a failing probe and an empty series. -/
theorem detect_no_metadata_insertAll_witness :
    ((Except.error () : Except Unit (Nat × Int × Int × Int)) = .error () ∨
      ∃ e l c, (Except.error () : Except Unit (Nat × Int × Int × Int)) = .ok (0, e, l, c)) ∧
    detectDataChangesOptimized [] (getExistingDataInfo (.error ())) zeroHash (.ok []) =
      .ok ⟨.insertAll, [], "股票不存在於資料庫"⟩ :=
  ⟨Or.inl rfl, detect_no_metadata_insertAll [] (.error ()) zeroHash (.ok []) (Or.inl rfl)⟩

/-- Counterexample to C8: with no stored metadata and an empty external
series the decision has mode `insert_all` with an empty `rows`, so
"`rows` is empty iff mode is `Skip`" fails. -/
theorem decision_rows_empty_not_skip :
    detectDataChangesOptimized [] none zeroHash (.ok []) =
      .ok ⟨.insertAll, [], "股票不存在於資料庫"⟩ ∧
    ¬ ((ChangeDecision.mk .insertAll [] "股票不存在於資料庫").rows = [] ↔
       (ChangeDecision.mk .insertAll [] "股票不存在於資料庫").mode = .skip) :=
  ⟨rfl, by simp⟩

/-- C8 (amended): for every decision the procedure returns, `rows` is empty
iff the mode is `skip` or the mode is `insert_all` with an empty input
series. -/
theorem rows_empty_iff_skip_or_empty_insertAll (E : List Bar)
    (info : Option ExistingInfo) (fh : List Bar → Int)
    (dbResult : Except Unit (List (Int × List (String × ℚ))))
    (d : ChangeDecision)
    (h : detectDataChangesOptimized E info fh dbResult = .ok d) :
    d.rows = [] ↔ (d.mode = .skip ∨ (d.mode = .insertAll ∧ E = [])) := by
  unfold detectDataChangesOptimized at h
  cases info with
  | none =>
    cases h
    simp
  | some mi =>
    dsimp only at h
    by_cases hE : E.isEmpty
    · rw [if_pos hE] at h
      exact absurd h (by simp)
    · rw [if_neg hE] at h
      by_cases hh : skipByHash E mi fh
      · rw [if_pos hh] at h
        cases h
        simp
      · rw [if_neg hh] at h
        by_cases hnew : (!(E.filter fun b => decide (b.date < mi.earliestDate)).isEmpty ||
            !(E.filter fun b => decide (mi.latestDate < b.date)).isEmpty) = true
        · rw [if_pos hnew] at h
          cases h
          simp only [Bool.or_eq_true, Bool.not_eq_true', List.isEmpty_eq_false] at hnew
          constructor
          · intro hrows
            rw [List.append_eq_nil] at hrows
            rcases hnew with hnew | hnew <;> simp_all
          · intro hmode
            rcases hmode with hmode | hmode <;> simp_all
        · rw [if_neg hnew] at h
          by_cases hov : max (fileEarliest E) mi.earliestDate ≤ min (fileLatest E) mi.latestDate
          · rw [if_pos hov] at h
            by_cases hcond : (!(overlapFileData E mi).isEmpty &&
                (overlapFileData E mi).length ≤ 100) = true
            · rw [if_pos hcond] at h
              by_cases hch : (!(compareWithDatabase dbResult (overlapFileData E mi)).isEmpty) = true
              · rw [if_pos hch] at h
                cases h
                simp only [Bool.not_eq_true', List.isEmpty_eq_false] at hch
                simp [hch]
              · rw [if_neg hch] at h
                cases h
                simp
            · rw [if_neg hcond] at h
              cases h
              simp
          · rw [if_neg hov] at h
            cases h
            simp

/-- C7: if the series reaches the bounded field-level diff tier and the store
round-trip raises, the decision is `update_changed` with all of the overlap
rows submitted for comparison, and no error is propagated. -/
theorem detect_db_error_updateChanged (E : List Bar) (mi : ExistingInfo)
    (fh : List Bar → Int)
    (hE : E.isEmpty = false)
    (hhash : skipByHash E mi fh = false)
    (hhist : E.filter (fun b => decide (b.date < mi.earliestDate)) = [])
    (hfut : E.filter (fun b => decide (mi.latestDate < b.date)) = [])
    (hov : (overlapFileData E mi).isEmpty = false)
    (hlen : (overlapFileData E mi).length ≤ 100) :
    detectDataChangesOptimized E (some mi) fh (.error ()) =
      .ok ⟨.updateChanged, overlapFileData E mi,
        "最近30天內檢測到 " ++ toString (overlapFileData E mi).length ++ " 筆數據有變化"⟩ := by
  have hovne : overlapFileData E mi ≠ [] := by
    intro hnil
    rw [hnil] at hov
    simp at hov
  obtain ⟨b, hb⟩ := List.exists_mem_of_ne_nil _ hovne
  have hble : max (fileEarliest E) mi.earliestDate ≤ min (fileLatest E) mi.latestDate := by
    unfold overlapFileData at hb
    have hb2 := (List.mem_filter.1 hb).2
    simp only [Bool.and_eq_true, decide_eq_true_eq] at hb2
    omega
  have hcw : compareWithDatabase (.error ()) (overlapFileData E mi) = overlapFileData E mi := by
    unfold compareWithDatabase
    rw [if_neg (by simp [hov])]
  unfold detectDataChangesOptimized
  dsimp only
  rw [if_neg (by simp [hE]), if_neg (by simp [hhash]), hhist, hfut,
    if_neg (by simp), if_pos hble,
    if_pos (by simp [hov, hlen] :
      (!(overlapFileData E mi).isEmpty && decide ((overlapFileData E mi).length ≤ 100)) = true),
    hcw, if_pos (by simp [hov])]

/-- Witness for C7: two overlap bars, a failing store round-trip. -/
theorem detect_db_error_updateChanged_witness :
    ([(⟨40, []⟩ : Bar), ⟨50, []⟩].isEmpty = false) ∧
    skipByHash [⟨40, []⟩, ⟨50, []⟩] ⟨2, 0, 50, 123⟩ oneHash = false ∧
    [(⟨40, []⟩ : Bar), ⟨50, []⟩].filter
      (fun b => decide (b.date < (⟨2, 0, 50, 123⟩ : ExistingInfo).earliestDate)) = [] ∧
    [(⟨40, []⟩ : Bar), ⟨50, []⟩].filter
      (fun b => decide ((⟨2, 0, 50, 123⟩ : ExistingInfo).latestDate < b.date)) = [] ∧
    ((overlapFileData [⟨40, []⟩, ⟨50, []⟩] ⟨2, 0, 50, 123⟩).isEmpty = false) ∧
    ((overlapFileData [⟨40, []⟩, ⟨50, []⟩] ⟨2, 0, 50, 123⟩).length ≤ 100) ∧
    detectDataChangesOptimized [⟨40, []⟩, ⟨50, []⟩] (some ⟨2, 0, 50, 123⟩) oneHash (.error ()) =
      .ok ⟨.updateChanged, overlapFileData [⟨40, []⟩, ⟨50, []⟩] ⟨2, 0, 50, 123⟩,
        "最近30天內檢測到 " ++
          toString (overlapFileData [⟨40, []⟩, ⟨50, []⟩] ⟨2, 0, 50, 123⟩).length ++
          " 筆數據有變化"⟩ :=
  ⟨rfl, rfl, rfl, rfl, rfl, by decide,
    detect_db_error_updateChanged [⟨40, []⟩, ⟨50, []⟩] ⟨2, 0, 50, 123⟩ oneHash
      rfl rfl rfl rfl rfl (by decide)⟩

/-- Counterexample to C6: `detect_data_changes_optimized` has no
historical-expansion flag, and on an ordinary run it selects the bar at day 5
even though the stored earliest is day 10. -/
theorem detect_includes_older_rows :
    detectDataChangesOptimized [⟨5, []⟩] (some ⟨1, 10, 20, 0⟩) zeroHash (.ok []) =
      .ok ⟨.incremental, [⟨5, []⟩], "發現 1 筆歷史數據"⟩ ∧
    ((5 : Int) < (⟨1, 10, 20, 0⟩ : ExistingInfo).earliestDate) :=
  ⟨rfl, by decide⟩

/-- C6 (amended): only `process_stock` gates lower-bound expansion — with
`expand_history` false its historical tier contributes no part — while
`detect_data_changes_optimized` always includes rows older than the stored
earliest (whenever the hash tier does not skip) in its incremental rows. -/
theorem lower_bound_gating :
    (∀ external dbEarliest dbLatest checkDays outdatedOf,
      ∀ p ∈ processStockNewDataParts false external dbEarliest dbLatest checkDays outdatedOf,
        p.1 ≠ "historical") ∧
    (∀ E mi fh dbResult d b,
      detectDataChangesOptimized E (some mi) fh dbResult = .ok d →
      skipByHash E mi fh = false → b ∈ E → b.date < mi.earliestDate → b ∈ d.rows) := by
  constructor
  · intro ext dbE dbL cd f p hp
    dsimp only [processStockNewDataParts] at hp
    rw [Bool.false_and, if_neg (by simp), List.nil_append, Bool.not_false,
      if_pos rfl] at hp
    rcases List.mem_append.1 hp with h | h
    · by_cases h2 : decide (dbL < fileLatest ext) = true
      · rw [if_pos h2] at h
        by_cases h3 : (!(List.filter (fun b => decide (dbL < b.date)) ext).isEmpty) = true
        · rw [if_pos h3] at h
          rw [List.mem_singleton] at h
          rw [h]
          exact (by decide : ("future" : String) ≠ "historical")
        · rw [if_neg h3] at h
          simp at h
      · rw [if_neg h2] at h
        simp at h
    · by_cases h4 : (!(f (listTail ext cd)).isEmpty) = true
      · rw [if_pos h4] at h
        rw [List.mem_singleton] at h
        rw [h]
        exact (by decide : ("updated" : String) ≠ "historical")
      · rw [if_neg h4] at h
        simp at h
  · intro E mi fh dbResult d b hdet hhash hbE hblt
    have hbh : b ∈ E.filter (fun x => decide (x.date < mi.earliestDate)) :=
      List.mem_filter.2 ⟨hbE, by simpa using hblt⟩
    have hEne : E.isEmpty = false := by
      cases E with
      | nil => simp at hbE
      | cons x xs => rfl
    unfold detectDataChangesOptimized at hdet
    dsimp only at hdet
    rw [if_neg (by simp [hEne]), if_neg (by simp [hhash])] at hdet
    have hcond : (!(E.filter fun x => decide (x.date < mi.earliestDate)).isEmpty ||
        !(E.filter fun x => decide (mi.latestDate < x.date)).isEmpty) = true := by
      have hne := List.ne_nil_of_mem hbh
      simp only [Bool.or_eq_true, Bool.not_eq_true', List.isEmpty_eq_false]
      exact Or.inl hne
    rw [if_pos hcond] at hdet
    cases hdet
    exact List.mem_append_left _ hbh

/-- Witness for the amended C6: the gated `process_stock` parts at a concrete
input, and the older-bar inclusion in the detect path. -/
theorem lower_bound_gating_witness :
    ((("updated", [(⟨5, []⟩ : Bar)]) ∈
        processStockNewDataParts false [⟨5, []⟩] 10 10 30 outdatedAt5) ∧
     (("updated", [(⟨5, []⟩ : Bar)]).1 ≠ "historical") ∧
     (detectDataChangesOptimized [⟨5, []⟩] (some ⟨1, 10, 20, 0⟩) zeroHash (.ok []) =
        .ok ⟨.incremental, [⟨5, []⟩], "發現 1 筆歷史數據"⟩) ∧
     skipByHash [⟨5, []⟩] ⟨1, 10, 20, 0⟩ zeroHash = false ∧
     ((⟨5, []⟩ : Bar) ∈ [(⟨5, []⟩ : Bar)]) ∧
     ((5 : Int) < (⟨1, 10, 20, 0⟩ : ExistingInfo).earliestDate) ∧
     ((⟨5, []⟩ : Bar) ∈
        (ChangeDecision.mk .incremental [⟨5, []⟩] "發現 1 筆歷史數據").rows)) :=
  ⟨by decide,
   lower_bound_gating.1 [⟨5, []⟩] 10 10 30 outdatedAt5 ("updated", [⟨5, []⟩]) (by decide),
   rfl, rfl, by decide, by decide,
   lower_bound_gating.2 [⟨5, []⟩] ⟨1, 10, 20, 0⟩ zeroHash (.ok [])
     ⟨.incremental, [⟨5, []⟩], "發現 1 筆歷史數據"⟩ ⟨5, []⟩ rfl rfl (by decide) (by decide)⟩

/-- Witness for the amended C8 at a concrete decision. -/
theorem rows_empty_iff_skip_or_empty_insertAll_witness :
    (detectDataChangesOptimized [⟨5, []⟩] (some ⟨1, 10, 20, 0⟩) zeroHash (.ok []) =
      .ok ⟨.incremental, [⟨5, []⟩], "發現 1 筆歷史數據"⟩) ∧
    ((ChangeDecision.mk .incremental [⟨5, []⟩] "發現 1 筆歷史數據").rows = [] ↔
      ((ChangeDecision.mk .incremental [⟨5, []⟩] "發現 1 筆歷史數據").mode = .skip ∨
       ((ChangeDecision.mk .incremental [⟨5, []⟩] "發現 1 筆歷史數據").mode = .insertAll ∧
        ([(⟨5, []⟩ : Bar)] : List Bar) = []))) :=
  ⟨rfl, rows_empty_iff_skip_or_empty_insertAll [⟨5, []⟩] (some ⟨1, 10, 20, 0⟩)
    zeroHash (.ok []) _ rfl⟩

/-! ## Upsert gateway: the broken per-row fallback (C3, C9). -/

/-- C3 (code bug): when the set-based batch insert fails, the fallback call
`self._upsert_batch_by_batch(df, symbol)` passes two positional arguments to
a method defined with only one (`def _upsert_batch_by_batch(self, df)`), so
the whole batch aborts with `TypeError` instead of being applied row by row —
even though the per-row body itself would merge the row correctly. -/
theorem incrementalUpdate_fallback_typeError :
    toSqlAppend [sampleRow] [sampleRow2] = .error .integrityError ∧
    incrementalUpdate [sampleRow] [sampleRow2] = .error .typeError ∧
    upsertRowsBody [sampleRow] [sampleRow2] = ([sampleRow2], ⟨0, 1, 0⟩) :=
  ⟨rfl, rfl, rfl⟩

/-- C9 (code bug): a first `insert_all` application succeeds, but re-applying
the same decision hits the unique key, and the mis-called fallback turns the
merge into a `TypeError`; an `update_changed` decision aborts the same way on
its very first application. -/
theorem executeImport_double_apply_typeError :
    executeImport [] [sampleRow] "2330" "insert_all" = .ok ([sampleRow], ⟨1, 0, 0⟩) ∧
    executeImport [sampleRow] [sampleRow] "2330" "insert_all" = .error .typeError ∧
    executeImport [] [sampleRow] "2330" "update_changed" = .error .typeError :=
  ⟨rfl, rfl, rfl⟩
